import Mathlib

/-!
Shallow embedding of the "Scream to the Sky" game core in Lean 4.

Numbers are modelled as exact rationals (ℚ).  Values the code reads from the
platform each frame (microphone volume and pitch, Math.random draws, the
horse's collision bounds, the elapsed time of the frame) are passed in as
explicit inputs.  DOM, canvas drawing and Web Audio plumbing are out of
scope; only the state the game logic reads and writes is modelled.
-/

/-! ### Configuration constants (src/constants.ts) -/

def canvasWidth : ℚ := 1280
def canvasHeight : ℚ := 720

/-- GAME_CONFIG.baseSpeed -/
def baseSpeed : ℚ := 10
/-- GAME_CONFIG.maxSpeedBoost -/
def maxSpeedBoost : ℚ := 1000
/-- GAME_CONFIG.volumeThreshold -/
def volumeThreshold : ℚ := 3/10
/-- GAME_CONFIG.silenceGracePeriod (seconds) -/
def silenceGracePeriod : ℚ := 1/20

/-- AUDIO_CONFIG.minVolume -/
def audioMinVolume : ℚ := 1/10
/-- AUDIO_CONFIG.maxVolume -/
def audioMaxVolume : ℚ := 1/4

/-- HORSE_CONFIG.groundY -/
def horseGroundY : ℚ := 650
/-- HORSE_CONFIG.animationFrames -/
def horseAnimationFrames : ℕ := 6
/-- HORSE_CONFIG.baseAnimationSpeed (ms per frame) -/
def baseAnimationSpeed : ℚ := 100
/-- HORSE_CONFIG.minAnimationSpeed (ms per frame) -/
def minAnimationSpeed : ℚ := 40

/-! ### Obstacles (src/obstacle.ts) -/

/-- Obstacle kinds: 'rock' | 'fence' | 'barrel'. -/
inductive ObstacleType where
  | rock
  | fence
  | barrel
deriving DecidableEq, Repr

/-- A single obstacle instance. -/
structure Obstacle where
  x : ℚ
  y : ℚ
  width : ℚ
  height : ℚ
  type : ObstacleType
deriving DecidableEq, Repr

/-- OBSTACLE_CONFIG.minSpawnInterval -/
def minSpawnInterval : ℚ := 800
/-- OBSTACLE_CONFIG.maxSpawnInterval -/
def maxSpawnInterval : ℚ := 2000
/-- OBSTACLE_CONFIG.groundY = CANVAS_DIMENSIONS.height - 55 -/
def obstacleGroundY : ℚ := canvasHeight - 55

/-- Widths from OBSTACLE_CONFIG.types. -/
def obstacleWidth : ObstacleType → ℚ
  | .rock => 60
  | .fence => 40
  | .barrel => 50

/-- Heights from OBSTACLE_CONFIG.types. -/
def obstacleHeight : ObstacleType → ℚ
  | .rock => 50
  | .fence => 70
  | .barrel => 55

/-- Private fields of ObstacleManager. -/
structure ObstacleManagerState where
  obstacles : List Obstacle
  nextSpawnDistance : ℚ
deriving DecidableEq, Repr

namespace ObstacleManager

/-- ObstacleManager.START_DISTANCE -/
def START_DISTANCE : ℚ := 5000

/-- getRandomSpawnInterval; `rand` is the Math.random() draw in [0,1). -/
def getRandomSpawnInterval (rand : ℚ) : ℚ :=
  minSpawnInterval + rand * (maxSpawnInterval - minSpawnInterval)

/-- getRandomType; `rand` is the Math.random() draw in [0,1). -/
def getRandomType (rand : ℚ) : ObstacleType :=
  List.getD [ObstacleType.rock, ObstacleType.fence, ObstacleType.barrel] (Int.toNat ⌊rand * 3⌋) ObstacleType.rock

/-- spawnObstacle; spawns just off-screen right, on the ground line. -/
def spawnObstacle (rand : ℚ) : Obstacle :=
  let t := getRandomType rand
  { x := canvasWidth + 50
    y := obstacleGroundY - obstacleHeight t
    width := obstacleWidth t
    height := obstacleHeight t
    type := t }

/-- ObstacleManager.update: spawn past START_DISTANCE, move left by
`speed * deltaSeconds * 2`, drop obstacles fully off-screen left.
`randI` and `randT` are the Math.random() draws used this frame. -/
def update (distance speed deltaTime randI randT : ℚ)
    (st : ObstacleManagerState) : ObstacleManagerState :=
  if distance < START_DISTANCE then st
  else
    let st1 :=
      if st.nextSpawnDistance ≤ distance then
        { obstacles := st.obstacles ++ [spawnObstacle randT]
          nextSpawnDistance := distance + getRandomSpawnInterval randI }
      else st
    let deltaSeconds := deltaTime / 1000
    let movement := speed * deltaSeconds * 2
    let moved := st1.obstacles.map (fun o => { o with x := o.x - movement })
    { st1 with obstacles := moved.filter (fun o => decide (-50 < o.x + o.width)) }

/-- ObstacleManager.checkCollision: AABB test between the horse's bounds
inset by 15 on every side and each obstacle, all inequalities strict. -/
def checkCollision (horseX horseY horseWidth horseHeight : ℚ)
    (obstacles : List Obstacle) : Bool :=
  let padding : ℚ := 15
  obstacles.any fun obstacle =>
    let horseLeft := horseX + padding
    let horseRight := horseX + horseWidth - padding
    let horseTop := horseY + padding
    let horseBottom := horseY + horseHeight - padding
    decide (obstacle.x < horseRight) && decide (horseLeft < obstacle.x + obstacle.width) &&
      decide (obstacle.y < horseBottom) && decide (horseTop < obstacle.y + obstacle.height)

/-- ObstacleManager.reset; `randI` is the Math.random() draw. -/
def reset (randI : ℚ) : ObstacleManagerState :=
  { obstacles := [], nextSpawnDistance := START_DISTANCE + getRandomSpawnInterval randI }

end ObstacleManager

/-! ### Horse (src/horse.ts) -/

/-- Private fields of the Horse object.  `spriteLoaded`, `frameWidth` and
`frameHeight` are set by the asynchronous image onload handler; they are
carried as plain state here. -/
structure HorseState where
  x : ℚ
  y : ℚ
  currentFrame : ℕ
  frameTimer : ℚ
  animationSpeed : ℚ
  spriteLoaded : Bool
  frameWidth : ℚ
  frameHeight : ℚ
  flyingModeEnabled : Bool
  currentDistance : ℚ
  currentPitchHeight : ℚ
  targetPitchHeight : ℚ
deriving DecidableEq, Repr

namespace Horse

/-- Horse.TRANSITION_START -/
def TRANSITION_START : ℚ := 5000
/-- Horse.TRANSITION_DURATION -/
def TRANSITION_DURATION : ℚ := 500
/-- Horse.BASE_FLY_HEIGHT -/
def BASE_FLY_HEIGHT : ℚ := 0
/-- Horse.MAX_PITCH_HEIGHT -/
def MAX_PITCH_HEIGHT : ℚ := 400
/-- Horse display scale -/
def scale : ℚ := 1

/-- Horse constructor state (before any image onload fires). -/
def init : HorseState :=
  { x := 50
    y := horseGroundY
    currentFrame := 0
    frameTimer := 0
    animationSpeed := baseAnimationSpeed
    spriteLoaded := false
    frameWidth := 0
    frameHeight := 0
    flyingModeEnabled := false
    currentDistance := 0
    currentPitchHeight := 0
    targetPitchHeight := 0 }

/-- Horse.setFlyingModeEnabled -/
def setFlyingModeEnabled (enabled : Bool) (h : HorseState) : HorseState :=
  { h with flyingModeEnabled := enabled }

/-- Horse.getTransitionProgress: 0 when flying mode is disabled, otherwise
clamp01((currentDistance - TRANSITION_START) / TRANSITION_DURATION), with an
early 0 return below TRANSITION_START. -/
def getTransitionProgress (h : HorseState) : ℚ :=
  if h.flyingModeEnabled = false then 0
  else if h.currentDistance < TRANSITION_START then 0
  else min 1 (max 0 ((h.currentDistance - TRANSITION_START) / TRANSITION_DURATION))

/-- Horse.getBounds -/
def getBounds (h : HorseState) : ℚ × ℚ × ℚ × ℚ :=
  let width := if h.spriteLoaded then h.frameWidth * scale else 80
  let height := if h.spriteLoaded then h.frameHeight * scale else 60
  (h.x, h.y, width, height)

/-- Horse.update: sprite-frame animation, pitch-controlled flying height,
and the vertical position blend. -/
def update (h : HorseState)
    (deltaTime speed distance currentPitch referencePitch : ℚ) : HorseState :=
  let h0 := { h with currentDistance := distance }
  let h1 :=
    if 0 < speed then
      let speedFactor := speed / 300
      let animSpeed := max minAnimationSpeed (baseAnimationSpeed - speedFactor * 100)
      let timer := h0.frameTimer + deltaTime
      if animSpeed ≤ timer then
        { h0 with animationSpeed := animSpeed
                  currentFrame := (h0.currentFrame + 1) % horseAnimationFrames
                  frameTimer := 0 }
      else
        { h0 with animationSpeed := animSpeed, frameTimer := timer }
    else
      { h0 with currentFrame := 0, frameTimer := 0 }
  let flyProgress := getTransitionProgress h1
  let h2 :=
    if 0 < flyProgress ∧ 0 < referencePitch ∧ 0 < currentPitch then
      let pitchQuot := currentPitch / referencePitch
      let rawOffset := (pitchQuot - 1) * MAX_PITCH_HEIGHT
      let target := max 0 (min MAX_PITCH_HEIGHT rawOffset)
      let smoothing := deltaTime * (5/1000)
      { h1 with targetPitchHeight := target
                currentPitchHeight :=
                  h1.currentPitchHeight + (target - h1.currentPitchHeight) * smoothing }
    else
      { h1 with currentPitchHeight :=
                  h1.currentPitchHeight + (0 - h1.currentPitchHeight) * (deltaTime * (5/1000)) }
  if h2.spriteLoaded then
    let baseY := horseGroundY - h2.frameHeight * scale
    let baseFlyOffset := flyProgress * BASE_FLY_HEIGHT
    let pitchFlyOffset := flyProgress * h2.currentPitchHeight
    { h2 with y := baseY - baseFlyOffset - pitchFlyOffset }
  else h2

/-- Horse.reset -/
def reset (h : HorseState) : HorseState :=
  let h1 := { h with currentFrame := 0
                     frameTimer := 0
                     animationSpeed := baseAnimationSpeed
                     currentDistance := 0
                     currentPitchHeight := 0
                     targetPitchHeight := 0 }
  if h1.spriteLoaded then { h1 with y := horseGroundY - h1.frameHeight * scale }
  else h1

end Horse

/-! ### Game (src/game.ts) -/

/-- The GameState record (src/types.ts), owned by the Game and mutated in
place during a session. -/
structure GameState where
  isRunning : Bool
  isPaused : Bool
  isGameOver : Bool
  distance : ℚ
  speed : ℚ
  volumeLevel : ℚ
  screamTime : ℚ
  isScreaming : Bool
  flyingChallengeMode : Bool
deriving DecidableEq, Repr

/-- The Game object's private fields relevant to the core logic: the state
record, the silence timer, pitch tracking, and the owned ObstacleManager. -/
structure GState where
  state : GameState
  silenceTimer : ℚ
  referencePitch : ℚ
  currentPitch : ℚ
  obstacles : ObstacleManagerState
deriving DecidableEq, Repr

/-- Environment of a single frame: the elapsed time (ms), the two values read
from the AudioManager, the Math.random() draws the ObstacleManager may use,
and the horse bounds the collision check receives. -/
structure FrameInput where
  deltaTime : ℚ
  volume : ℚ
  pitch : ℚ
  randI : ℚ
  randT : ℚ
  horseX : ℚ
  horseY : ℚ
  horseW : ℚ
  horseH : ℚ
deriving DecidableEq, Repr

namespace Game

/-- Game.PITCH_CAPTURE_DISTANCE -/
def PITCH_CAPTURE_DISTANCE : ℚ := 4500

/-- Game.getInitialState -/
def getInitialState : GameState :=
  { isRunning := false
    isPaused := false
    isGameOver := false
    distance := 0
    speed := 0
    volumeLevel := 0
    screamTime := 0
    isScreaming := false
    flyingChallengeMode := false }

/-- Game.updateSpeed: speed from the volume level (only called while
screaming). -/
def updateSpeed (volumeLevel : ℚ) : ℚ :=
  let normalizedVolume := (volumeLevel - volumeThreshold) / (1 - volumeThreshold)
  let speedBoost := normalizedVolume * maxSpeedBoost
  baseSpeed + speedBoost

/-- Game.gameOver: flags the terminal state and zeroes the speed.  (The
animation-frame cancellation and the delayed UI screen are not modelled.) -/
def gameOverState (g : GState) : GState :=
  { g with state := { g.state with isGameOver := true, isRunning := false, speed := 0 } }

/-- The obstacle section at the end of Game.update: in flying challenge mode,
update the ObstacleManager and game-over on collision with the horse bounds. -/
def obstaclePhase (i : FrameInput) (g : GState) : GState :=
  if g.state.flyingChallengeMode then
    let om := ObstacleManager.update g.state.distance g.state.speed i.deltaTime i.randI i.randT g.obstacles
    let g2 := { g with obstacles := om }
    if ObstacleManager.checkCollision i.horseX i.horseY i.horseW i.horseH om.obstacles then
      gameOverState g2
    else g2
  else g

/-- Game.update, one frame: read volume and pitch, decide screaming,
scream/silence bookkeeping (with the silence game-over early return), speed
update or decay, distance integration, then the obstacle section.  The
horse/renderer/UI calls touch no state modelled here; the Horse is modelled
separately. -/
def update (i : FrameInput) (g : GState) : GState :=
  let deltaSeconds := i.deltaTime / 1000
  if volumeThreshold < i.volume then
    -- screaming branch: reset silence timer, accumulate scream time,
    -- recompute speed, possibly capture the reference pitch
    let speed := updateSpeed i.volume
    let referencePitch :=
      if g.state.flyingChallengeMode = true ∧ PITCH_CAPTURE_DISTANCE ≤ g.state.distance ∧
          g.state.distance < 5000 ∧ 0 < i.pitch then
        i.pitch
      else g.referencePitch
    let g1 : GState :=
      { state := { g.state with
                    volumeLevel := i.volume
                    isScreaming := true
                    screamTime := g.state.screamTime + deltaSeconds
                    speed := speed
                    distance := g.state.distance + speed * deltaSeconds }
        silenceTimer := 0
        referencePitch := referencePitch
        currentPitch := i.pitch
        obstacles := g.obstacles }
    obstaclePhase i g1
  else
    -- silent branch: grow the silence timer, game over after the grace
    -- period once some scream time has accumulated, otherwise decay speed
    let newSilence := g.silenceTimer + deltaSeconds
    if silenceGracePeriod ≤ newSilence ∧ 0 < g.state.screamTime then
      gameOverState
        { g with state := { g.state with volumeLevel := i.volume, isScreaming := false }
                 silenceTimer := newSilence
                 currentPitch := i.pitch }
    else
      let speed := max 0 (g.state.speed - 200 * deltaSeconds)
      let g1 : GState :=
        { state := { g.state with
                      volumeLevel := i.volume
                      isScreaming := false
                      speed := speed
                      distance := g.state.distance + speed * deltaSeconds }
          silenceTimer := newSilence
          referencePitch := g.referencePitch
          currentPitch := i.pitch
          obstacles := g.obstacles }
      obstaclePhase i g1

/-- The gameLoop guard: update only runs while isRunning and not isGameOver. -/
def step (i : FrameInput) (g : GState) : GState :=
  if g.state.isRunning = false ∨ g.state.isGameOver = true then g
  else update i g

/-- Iterated frames driven by an input stream. -/
def run (f : ℕ → FrameInput) (g : GState) : ℕ → GState
  | 0 => g
  | n + 1 => step (f n) (run f g n)

/-- Game.restart: fresh state record, running, timers and pitch tracking
cleared, obstacle manager reset.  `flyingMode` is the toggle read from the
DOM; `randI` is the Math.random() draw of ObstacleManager.reset. -/
def restart (flyingMode : Bool) (randI : ℚ) (_g : GState) : GState :=
  { state := { getInitialState with isRunning := true, flyingChallengeMode := flyingMode }
    silenceTimer := 0
    referencePitch := 0
    currentPitch := 0
    obstacles := ObstacleManager.reset randI }

/-! Frame-level views used to state the specification claims; each mirrors
exactly the value the corresponding branch of `update` computes. -/

/-- The value the silence timer holds on this frame after the
screaming/silence bookkeeping. -/
def silenceTimerAfter (i : FrameInput) (g : GState) : ℚ :=
  if volumeThreshold < i.volume then 0 else g.silenceTimer + i.deltaTime / 1000

/-- The speed the motion part of the frame computes (before any game-over
zeroes it). -/
def speedAfterMotion (i : FrameInput) (g : GState) : ℚ :=
  if volumeThreshold < i.volume then updateSpeed i.volume
  else max 0 (g.state.speed - 200 * (i.deltaTime / 1000))

/-- The distance after this frame's integration step. -/
def distanceAfterMotion (i : FrameInput) (g : GState) : ℚ :=
  g.state.distance + speedAfterMotion i g * (i.deltaTime / 1000)

/-- The obstacle set this frame's collision check runs against. -/
def frameObstacles (i : FrameInput) (g : GState) : ObstacleManagerState :=
  ObstacleManager.update (distanceAfterMotion i g) (speedAfterMotion i g)
    i.deltaTime i.randI i.randT g.obstacles

/-- Whether an obstacle collision is detected on this frame: the collision
check runs only in flying challenge mode, against the frame's updated
obstacles and the horse bounds the frame supplies. -/
def collisionThisFrame (i : FrameInput) (g : GState) : Bool :=
  g.state.flyingChallengeMode && ObstacleManager.checkCollision i.horseX i.horseY i.horseW i.horseH
    (frameObstacles i g).obstacles

end Game

/-! ### AudioManager (src/audio.ts, and the alternate copy of the class)

The analyser node, the two sample buffers and the audio context are nullable
fields, all set together on successful microphone acquisition and all nulled
on dispose.  The byte arrays hold the samples the device delivers on a read;
`Math.sqrt` is a platform numeric primitive and is passed in as a function
argument, like the other per-call environment values. -/

/-- The analyser node's configuration visible to the reads. -/
structure AnalyserData where
  fftSize : ℕ
deriving DecidableEq, Repr

/-- The audio context's configuration visible to the reads. -/
structure AudioContextData where
  sampleRate : ℚ
deriving DecidableEq, Repr

/-- Nullable private fields of AudioManager. -/
structure AudioManagerState where
  analyser : Option AnalyserData
  dataArray : Option (List ℕ)
  frequencyArray : Option (List ℕ)
  audioContext : Option AudioContextData
  isEnabled : Bool
deriving DecidableEq, Repr

namespace AudioManager

/-- Constructor state: no device acquired, every nullable field null. -/
def new : AudioManagerState :=
  { analyser := none, dataArray := none, frequencyArray := none
    audioContext := none, isEnabled := false }

/-- AudioManager.dispose: nulls every field. -/
def dispose (_st : AudioManagerState) : AudioManagerState :=
  { analyser := none, dataArray := none, frequencyArray := none
    audioContext := none, isEnabled := false }

/-- Shared helper: byte (0..255) to amplitude in [-1, 1]. -/
def amplitudeOf (b : ℕ) : ℚ := ((b : ℚ) - 128) / 128

/-- AudioManager.getVolumeLevel (src/audio.ts): 0 with no device, otherwise
min 1 ((rms * 0.4 + peak * 0.6) * 1.5) over the time-domain samples. -/
def getVolumeLevel (sqrtFn : ℚ → ℚ) (st : AudioManagerState) : ℚ :=
  match st.analyser, st.dataArray with
  | some _, some data =>
    let amps := data.map amplitudeOf
    let sumSquares := (amps.map (fun a => a * a)).sum
    let peak := (amps.map (fun a => |a|)).foldl max 0
    let rms := sqrtFn (sumSquares / (data.length : ℚ))
    let combined := rms * (4/10) + peak * (6/10)
    min 1 (combined * (3/2))
  | _, _ => 0

/-- The peak-bin scan shared by both getPitch variants: over bins
[minBin, maxBin), keep the strongest value and its index (strict >). -/
def peakBin (freq : List ℕ) (minBin maxBin : ℕ) : ℕ × ℕ :=
  ((List.range maxBin).drop minBin).foldl
    (fun acc i => if acc.1 < freq.getD i 0 then (freq.getD i 0, i) else acc) (0, 0)

/-- AudioManager.getPitch (src/audio.ts): 0 with no device; otherwise the
frequency of the strongest bin in [2, min(len,100)), 0 if its magnitude is
below 50. -/
def getPitch (st : AudioManagerState) : ℚ :=
  match st.analyser, st.frequencyArray, st.audioContext with
  | some an, some freq, some ctx =>
    let best := peakBin freq 2 (min freq.length 100)
    if best.1 < 50 then 0
    else
      let binFrequency := ctx.sampleRate / (an.fftSize : ℚ)
      (best.2 : ℚ) * binFrequency
  | _, _, _ => 0

end AudioManager

namespace AudioManagerAlt

/-- Alternate getVolumeLevel: 0 with no device, otherwise the raw RMS mapped
linearly from [minVolume, maxVolume] to [0, 1] and clamped (0 when the
configured range is empty).  The calibration console.log has no state
effect and is omitted. -/
def getVolumeLevel (sqrtFn : ℚ → ℚ) (st : AudioManagerState) : ℚ :=
  match st.analyser, st.dataArray with
  | some _, some data =>
    let amps := data.map AudioManager.amplitudeOf
    let sumSquares := (amps.map (fun a => a * a)).sum
    let raw := sqrtFn (sumSquares / (data.length : ℚ))
    let range := audioMaxVolume - audioMinVolume
    if range ≤ 0 then 0
    else
      let normalised := (raw - audioMinVolume) / range
      max 0 (min 1 normalised)
  | _, _ => 0

/-- Alternate getPitch: bins [2, min(len,120)), magnitude floor 20. -/
def getPitch (st : AudioManagerState) : ℚ :=
  match st.analyser, st.frequencyArray, st.audioContext with
  | some an, some freq, some ctx =>
    let best := AudioManager.peakBin freq 2 (min freq.length 120)
    if best.1 < 20 then 0
    else
      let binWidth := ctx.sampleRate / (an.fftSize : ℚ)
      (best.2 : ℚ) * binWidth
  | _, _, _ => 0

end AudioManagerAlt

/-! ### A reference store for Game.getState (src/game.ts lines 317-319)

`getState` returns `{ ...this.state }`: a freshly allocated object whose
fields (all primitives) are copied from the game's own record.  To express
that mutating the returned object cannot touch the game's record, JS object
references are modelled as a store of cells indexed by ℕ: the game's record
lives at `gameRef`, allocation hands out `next` and bumps it, and a field
mutation rewrites one cell in place. -/

structure StateStore where
  cells : ℕ → Option GameState
  next : ℕ
  gameRef : ℕ

namespace StateStore

/-- Dereference. -/
def readRef (st : StateStore) (r : ℕ) : Option GameState := st.cells r

/-- In-place mutation of (any field of) the object at `r`. -/
def writeRef (st : StateStore) (r : ℕ) (mutate : GameState → GameState) : StateStore :=
  { st with cells := Function.update st.cells r ((st.cells r).map mutate) }

/-- Game.getState: allocate a fresh object carrying a copy of every field of
the game's record, and return its reference. -/
def getStateOp (st : StateStore) : StateStore × ℕ :=
  let copy := st.cells st.gameRef
  ({ st with cells := Function.update st.cells st.next copy, next := st.next + 1 },
   st.next)

end StateStore

/-! ### Concrete inputs and states used to instantiate the claims -/

/-- A frame with the given elapsed time and no audio signal. -/
def silentFrame (dt : ℚ) : FrameInput :=
  { deltaTime := dt, volume := 0, pitch := 0, randI := 0, randT := 0
    horseX := 0, horseY := 0, horseW := 0, horseH := 0 }

/-- A frame with the given elapsed time and volume. -/
def screamFrame (dt v : ℚ) : FrameInput :=
  { deltaTime := dt, volume := v, pitch := 0, randI := 0, randT := 0
    horseX := 0, horseY := 0, horseW := 0, horseH := 0 }

/-- A running session in its initial configuration except for the given
speed (flying challenge mode off, no obstacles). -/
def runningAt (speed : ℚ) : GState :=
  { state := { Game.getInitialState with isRunning := true, speed := speed }
    silenceTimer := 0
    referencePitch := 0
    currentPitch := 0
    obstacles := { obstacles := [], nextSpawnDistance := 5800 } }

/-- A running session that has screamed for a while (so the silence
game-over guard is armed). -/
def armedSession : GState :=
  { state := { Game.getInitialState with isRunning := true, screamTime := 1 }
    silenceTimer := 0
    referencePitch := 0
    currentPitch := 0
    obstacles := { obstacles := [], nextSpawnDistance := 5800 } }

/-- A running flying-challenge session inside the pitch-capture window. -/
def captureWindowSession : GState :=
  { state := { Game.getInitialState with
                isRunning := true, flyingChallengeMode := true
                distance := 4600, screamTime := 1, speed := 100 }
    silenceTimer := 0
    referencePitch := 0
    currentPitch := 0
    obstacles := { obstacles := [], nextSpawnDistance := 5800 } }

/-- A running flying-challenge session past the pitch-capture window. -/
def pastWindowSession : GState :=
  { state := { Game.getInitialState with
                isRunning := true, flyingChallengeMode := true
                distance := 6000, screamTime := 1, speed := 100 }
    silenceTimer := 0
    referencePitch := 440
    currentPitch := 0
    obstacles := { obstacles := [], nextSpawnDistance := 6500 } }

/-- A screaming frame inside the capture window, with the given pitch. -/
def pitchFrame (p : ℚ) : FrameInput :=
  { deltaTime := 0, volume := 1/2, pitch := p, randI := 0, randT := 0
    horseX := 0, horseY := 0, horseW := 0, horseH := 0 }

/-- A store with a single allocated object: the game's state record. -/
def oneCellStore : StateStore :=
  { cells := fun n => if n = 0 then some Game.getInitialState else none
    next := 1
    gameRef := 0 }

/-- A field mutation: overwrite the distance of the record. -/
def distanceMut : GameState → GameState := fun s => { s with distance := 99 }

/-- External calls a Horse object can receive during a session. -/
inductive HorseOp where
  | upd (deltaTime speed distance currentPitch referencePitch : ℚ)
  | rst

/-- Apply one call. -/
def applyHorseOp (h : HorseState) : HorseOp → HorseState
  | .upd dt sp d p r => Horse.update h dt sp d p r
  | .rst => Horse.reset h

/-- Apply a call sequence left to right. -/
def applyHorseOps (h : HorseState) (ops : List HorseOp) : HorseState :=
  ops.foldl applyHorseOp h

/-- The invariant the game loop maintains: speed is non-negative, and a
session that is not running (or already over) has speed 0. -/
def GameInv (g : GState) : Prop :=
  0 ≤ g.state.speed ∧
    ((g.state.isRunning = false ∨ g.state.isGameOver = true) → g.state.speed = 0)

/-! ### Helper lemmas -/

lemma obstaclePhase_distance (i : FrameInput) (g : GState) :
    (Game.obstaclePhase i g).state.distance = g.state.distance := by
  unfold Game.obstaclePhase Game.gameOverState
  split_ifs with h1
  · simp only []
    split_ifs <;> rfl
  · rfl

lemma obstaclePhase_referencePitch (i : FrameInput) (g : GState) :
    (Game.obstaclePhase i g).referencePitch = g.referencePitch := by
  unfold Game.obstaclePhase Game.gameOverState
  split_ifs with h1
  · simp only []
    split_ifs <;> rfl
  · rfl

lemma obstaclePhase_isGameOver (i : FrameInput) (g : GState) :
    (Game.obstaclePhase i g).state.isGameOver = true ↔
      (g.state.isGameOver = true ∨
        (g.state.flyingChallengeMode = true ∧
          ObstacleManager.checkCollision i.horseX i.horseY i.horseW i.horseH
            (ObstacleManager.update g.state.distance g.state.speed i.deltaTime i.randI i.randT
              g.obstacles).obstacles = true)) := by
  unfold Game.obstaclePhase Game.gameOverState
  split_ifs with h1
  · simp only []
    split_ifs with h2 <;> simp_all
  · simp_all

lemma obstaclePhase_speed (i : FrameInput) (g : GState)
    (h : (g.state.flyingChallengeMode &&
      ObstacleManager.checkCollision i.horseX i.horseY i.horseW i.horseH
        (ObstacleManager.update g.state.distance g.state.speed i.deltaTime i.randI i.randT
          g.obstacles).obstacles) = false) :
    (Game.obstaclePhase i g).state.speed = g.state.speed := by
  unfold Game.obstaclePhase
  rcases Bool.and_eq_false_iff.mp h with h' | h'
  · simp [h']
  · split_ifs with h1
    · simp only []
      split_ifs with h2 <;> simp_all
    · rfl

lemma updateSpeed_linear (v : ℚ) :
    Game.updateSpeed v = 10 + (v - 3/10) * (10000/7) := by
  unfold Game.updateSpeed volumeThreshold baseSpeed maxSpeedBoost
  ring

lemma updateSpeed_pos (v : ℚ) (hv : volumeThreshold < v) : 0 < Game.updateSpeed v := by
  rw [updateSpeed_linear]
  unfold volumeThreshold at hv
  nlinarith

lemma speedAfterMotion_nonneg (i : FrameInput) (g : GState) :
    0 ≤ Game.speedAfterMotion i g := by
  unfold Game.speedAfterMotion
  split_ifs with hv
  · exact le_of_lt (updateSpeed_pos _ hv)
  · exact le_max_left _ _

/-! ### C5: flight transition progress -/

/-- C5: the flight transition progress is a pure function of the tracked
distance: 0 with the challenge mode disabled; with it enabled, 0 below the
start distance, 1 from start + span onward, and the linear ramp
(distance - start) / span in between; states agreeing on the mode flag and
the distance give the same value. -/
theorem c5_transitionProgress_spec (h : HorseState) :
    (h.flyingModeEnabled = false → Horse.getTransitionProgress h = 0) ∧
    (h.currentDistance < Horse.TRANSITION_START → Horse.getTransitionProgress h = 0) ∧
    (h.flyingModeEnabled = true →
      Horse.TRANSITION_START + Horse.TRANSITION_DURATION ≤ h.currentDistance →
      Horse.getTransitionProgress h = 1) ∧
    (h.flyingModeEnabled = true → Horse.TRANSITION_START ≤ h.currentDistance →
      h.currentDistance < Horse.TRANSITION_START + Horse.TRANSITION_DURATION →
      Horse.getTransitionProgress h =
        (h.currentDistance - Horse.TRANSITION_START) / Horse.TRANSITION_DURATION) ∧
    (∀ h' : HorseState, h'.flyingModeEnabled = h.flyingModeEnabled →
      h'.currentDistance = h.currentDistance →
      Horse.getTransitionProgress h' = Horse.getTransitionProgress h) := by
  unfold Horse.getTransitionProgress Horse.TRANSITION_START Horse.TRANSITION_DURATION
  refine ⟨fun hm => by simp [hm], fun hd => ?_, fun hm hd => ?_, fun hm hlo hhi => ?_, ?_⟩
  · split_ifs <;> rfl
  · rw [if_neg (by simp [hm]), if_neg (by linarith)]
    have h0 : (0:ℚ) ≤ (h.currentDistance - 5000) / 500 := by
      apply div_nonneg <;> linarith
    have h1 : (1:ℚ) ≤ (h.currentDistance - 5000) / 500 := by
      rw [le_div_iff₀] <;> linarith
    rw [max_eq_right h0, min_eq_left h1]
  · rw [if_neg (by simp [hm]), if_neg (by linarith)]
    have h0 : (0:ℚ) ≤ (h.currentDistance - 5000) / 500 := by
      apply div_nonneg <;> linarith
    have h1 : (h.currentDistance - 5000) / 500 ≤ 1 := by
      rw [div_le_iff₀] <;> linarith
    rw [max_eq_right h0, min_eq_right h1]
  · intro h' hm hd
    rw [hm, hd]

/-- C5 witness: the spec evaluated on concrete states — disabled mode,
before the window, on the ramp (5200 ↦ 2/5), and past the window. -/
theorem c5_transitionProgress_instance :
    Horse.getTransitionProgress { Horse.init with flyingModeEnabled := false, currentDistance := 6000 } = 0 ∧
    Horse.getTransitionProgress { Horse.init with flyingModeEnabled := true, currentDistance := 4000 } = 0 ∧
    Horse.getTransitionProgress { Horse.init with flyingModeEnabled := true, currentDistance := 6000 } = 1 ∧
    Horse.getTransitionProgress { Horse.init with flyingModeEnabled := true, currentDistance := 5200 } = 2/5 := by
  refine ⟨(c5_transitionProgress_spec _).1 rfl,
          (c5_transitionProgress_spec _).2.1 (by norm_num [Horse.init, Horse.TRANSITION_START]),
          (c5_transitionProgress_spec _).2.2.1 rfl
            (by norm_num [Horse.init, Horse.TRANSITION_START, Horse.TRANSITION_DURATION]),
          ?_⟩
  have := (c5_transitionProgress_spec
      { Horse.init with flyingModeEnabled := true, currentDistance := 5200 }).2.2.2.1 rfl
    (by norm_num [Horse.init, Horse.TRANSITION_START])
    (by norm_num [Horse.init, Horse.TRANSITION_START, Horse.TRANSITION_DURATION])
  rw [this]
  norm_num [Horse.TRANSITION_START, Horse.TRANSITION_DURATION]

/-! ### C6: obstacle collision test -/

/-- C6: the collision test returns true exactly when some obstacle's
rectangle strictly overlaps, on both axes, the horse rectangle inset by the
padding 15 on all sides; concrete checks: disjoint rectangles give false,
rectangles touching along an edge give false, fully overlapping rectangles
give true. -/
theorem c6_checkCollision_spec :
    (∀ (hx hy hw hh : ℚ) (obstacles : List Obstacle),
      ObstacleManager.checkCollision hx hy hw hh obstacles = true ↔
        ∃ o ∈ obstacles,
          o.x < hx + hw - 15 ∧ hx + 15 < o.x + o.width ∧
          o.y < hy + hh - 15 ∧ hy + 15 < o.y + o.height) ∧
    ObstacleManager.checkCollision 0 0 100 100
      [{ x := 200, y := 0, width := 60, height := 50, type := .rock }] = false ∧
    ObstacleManager.checkCollision 0 0 100 100
      [{ x := 85, y := 0, width := 60, height := 50, type := .rock }] = false ∧
    ObstacleManager.checkCollision 0 0 100 100
      [{ x := 40, y := 40, width := 20, height := 20, type := .barrel }] = true := by
  refine ⟨fun hx hy hw hh obstacles => ?_,
    by norm_num [ObstacleManager.checkCollision],
    by norm_num [ObstacleManager.checkCollision],
    by norm_num [ObstacleManager.checkCollision]⟩
  unfold ObstacleManager.checkCollision
  simp only [List.any_eq_true, Bool.and_eq_true, decide_eq_true_eq]
  constructor
  · rintro ⟨o, ho, ⟨⟨⟨p1, p2⟩, p3⟩, p4⟩⟩
    exact ⟨o, ho, p1, p2, p3, p4⟩
  · rintro ⟨o, ho, p1, p2, p3, p4⟩
    exact ⟨o, ho, ⟨⟨⟨p1, p2⟩, p3⟩, p4⟩⟩

/-! ### C7: signal reads with no device -/

/-- C7: with no initialized device — the freshly constructed manager, or any
manager after dispose — every volume read and every pitch read returns 0, in
both AudioManager variants, for any sqrt primitive. -/
theorem c7_signal_unavailable_zero :
    (∀ sqrtFn : ℚ → ℚ, AudioManager.getVolumeLevel sqrtFn AudioManager.new = 0) ∧
    AudioManager.getPitch AudioManager.new = 0 ∧
    (∀ (sqrtFn : ℚ → ℚ) (st : AudioManagerState),
      AudioManager.getVolumeLevel sqrtFn (AudioManager.dispose st) = 0) ∧
    (∀ st : AudioManagerState, AudioManager.getPitch (AudioManager.dispose st) = 0) ∧
    (∀ sqrtFn : ℚ → ℚ, AudioManagerAlt.getVolumeLevel sqrtFn AudioManager.new = 0) ∧
    AudioManagerAlt.getPitch AudioManager.new = 0 ∧
    (∀ (sqrtFn : ℚ → ℚ) (st : AudioManagerState),
      AudioManagerAlt.getVolumeLevel sqrtFn (AudioManager.dispose st) = 0) ∧
    (∀ st : AudioManagerState, AudioManagerAlt.getPitch (AudioManager.dispose st) = 0) :=
  ⟨fun _ => rfl, rfl, fun _ _ => rfl, fun _ => rfl, fun _ => rfl, rfl, fun _ _ => rfl, fun _ => rfl⟩

/-! ### C10: horse sprite frame -/

/-- The sprite-frame bound survives any single Horse call. -/
lemma applyHorseOp_frame_lt (h : HorseState) (op : HorseOp)
    (hf : h.currentFrame < horseAnimationFrames) :
    (applyHorseOp h op).currentFrame < horseAnimationFrames := by
  cases op with
  | rst =>
    unfold applyHorseOp Horse.reset
    simp only []
    split_ifs <;> simp [horseAnimationFrames]
  | upd dt sp d p r =>
    unfold applyHorseOp Horse.update
    simp only [horseAnimationFrames] at hf ⊢
    split_ifs <;> simp_all <;> omega

/-- C10: over any sequence of Horse.update / Horse.reset calls from the
constructed horse, the sprite-frame index stays strictly below the total
frame count 6; an update with speed 0 and a reset both put it back to 0. -/
theorem c10_frame_bound :
    (∀ ops : List HorseOp, (applyHorseOps Horse.init ops).currentFrame < horseAnimationFrames) ∧
    (∀ (h : HorseState) (dt d p r : ℚ), (Horse.update h dt 0 d p r).currentFrame = 0) ∧
    (∀ h : HorseState, (Horse.reset h).currentFrame = 0) := by
  refine ⟨fun ops => ?_, fun h dt d p r => ?_, fun h => ?_⟩
  · have key : ∀ (ops : List HorseOp) (h : HorseState),
        h.currentFrame < horseAnimationFrames →
        (applyHorseOps h ops).currentFrame < horseAnimationFrames := by
      intro ops
      induction ops with
      | nil => intro h hf; exact hf
      | cons op rest ih =>
        intro h hf
        exact ih _ (applyHorseOp_frame_lt h op hf)
    exact key ops Horse.init (by simp [Horse.init, horseAnimationFrames])
  · unfold Horse.update
    simp only []
    split_ifs <;> simp_all
  · unfold Horse.reset
    simp only []
    split_ifs <;> rfl

/-! ### C9: getState returns a copy -/

/-- C9: getState hands back a fresh reference distinct from the game's own
record; mutating any field of the returned object leaves the game's record
untouched, and a later getState still reads the original record. -/
theorem c9_getState_copy (st : StateStore) (mutate : GameState → GameState)
    (halloc : st.gameRef < st.next) :
    (StateStore.getStateOp st).2 ≠ st.gameRef ∧
    StateStore.readRef
        (StateStore.writeRef (StateStore.getStateOp st).1 (StateStore.getStateOp st).2 mutate)
        st.gameRef
      = StateStore.readRef st st.gameRef ∧
    (StateStore.getStateOp
        (StateStore.writeRef (StateStore.getStateOp st).1 (StateStore.getStateOp st).2 mutate)).1.cells
        ((StateStore.getStateOp
          (StateStore.writeRef (StateStore.getStateOp st).1 (StateStore.getStateOp st).2 mutate)).2)
      = StateStore.readRef st st.gameRef := by
  have hne : st.next ≠ st.gameRef := (Nat.ne_of_lt halloc).symm
  unfold StateStore.getStateOp StateStore.writeRef StateStore.readRef
  refine ⟨hne, ?_, ?_⟩
  · simp only []
    rw [Function.update_noteq (Ne.symm hne), Function.update_noteq (Ne.symm hne)]
  · simp only [Function.update_same]
    rw [Function.update_noteq (Ne.symm hne), Function.update_noteq (Ne.symm hne)]

/-- C9 witness: a store holding just the game's record, with the returned
copy's distance overwritten. -/
theorem c9_getState_copy_instance :
    oneCellStore.gameRef < oneCellStore.next ∧
    ((StateStore.getStateOp oneCellStore).2 ≠ oneCellStore.gameRef ∧
      StateStore.readRef
          (StateStore.writeRef (StateStore.getStateOp oneCellStore).1
            (StateStore.getStateOp oneCellStore).2 distanceMut)
          oneCellStore.gameRef
        = StateStore.readRef oneCellStore oneCellStore.gameRef ∧
      (StateStore.getStateOp
          (StateStore.writeRef (StateStore.getStateOp oneCellStore).1
            (StateStore.getStateOp oneCellStore).2 distanceMut)).1.cells
          ((StateStore.getStateOp
            (StateStore.writeRef (StateStore.getStateOp oneCellStore).1
              (StateStore.getStateOp oneCellStore).2 distanceMut)).2)
        = StateStore.readRef oneCellStore oneCellStore.gameRef) :=
  ⟨by norm_num [oneCellStore], c9_getState_copy oneCellStore distanceMut (by norm_num [oneCellStore])⟩

/-! ### Frame evaluation lemmas for Game.update -/

lemma obstaclePhase_no_collision (i : FrameInput) (g : GState)
    (h : (g.state.flyingChallengeMode &&
      ObstacleManager.checkCollision i.horseX i.horseY i.horseW i.horseH
        (ObstacleManager.update g.state.distance g.state.speed i.deltaTime i.randI i.randT
          g.obstacles).obstacles) = false) :
    (Game.obstaclePhase i g).state = g.state := by
  unfold Game.obstaclePhase
  rcases Bool.and_eq_false_iff.mp h with h' | h'
  · simp [h']
  · split_ifs with h1
    · simp only []
      split_ifs with h2 <;> simp_all
    · rfl

lemma update_screaming_state (i : FrameInput) (g : GState)
    (hv : volumeThreshold < i.volume) (hnc : Game.collisionThisFrame i g = false) :
    (Game.update i g).state =
      { g.state with
          volumeLevel := i.volume
          isScreaming := true
          screamTime := g.state.screamTime + i.deltaTime / 1000
          speed := Game.updateSpeed i.volume
          distance := g.state.distance + Game.updateSpeed i.volume * (i.deltaTime / 1000) } := by
  unfold Game.collisionThisFrame Game.frameObstacles Game.distanceAfterMotion
    Game.speedAfterMotion at hnc
  rw [if_pos hv] at hnc
  unfold Game.update
  simp only []
  rw [if_pos hv]
  exact obstaclePhase_no_collision i _ hnc

lemma update_silent_state (i : FrameInput) (g : GState)
    (hv : ¬ volumeThreshold < i.volume)
    (htrig : ¬ (silenceGracePeriod ≤ g.silenceTimer + i.deltaTime / 1000 ∧ 0 < g.state.screamTime))
    (hnc : Game.collisionThisFrame i g = false) :
    (Game.update i g).state =
      { g.state with
          volumeLevel := i.volume
          isScreaming := false
          speed := max 0 (g.state.speed - 200 * (i.deltaTime / 1000))
          distance := g.state.distance +
            max 0 (g.state.speed - 200 * (i.deltaTime / 1000)) * (i.deltaTime / 1000) } := by
  unfold Game.collisionThisFrame Game.frameObstacles Game.distanceAfterMotion
    Game.speedAfterMotion at hnc
  rw [if_neg hv] at hnc
  unfold Game.update
  simp only []
  rw [if_neg hv, if_neg htrig]
  exact obstaclePhase_no_collision i _ hnc

lemma update_referencePitch (i : FrameInput) (g : GState) :
    (Game.update i g).referencePitch =
      if volumeThreshold < i.volume ∧ g.state.flyingChallengeMode = true ∧
          Game.PITCH_CAPTURE_DISTANCE ≤ g.state.distance ∧ g.state.distance < 5000 ∧ 0 < i.pitch
      then i.pitch else g.referencePitch := by
  unfold Game.update
  simp only []
  split_ifs with hv hwin htrig <;>
    simp_all [obstaclePhase_referencePitch, Game.gameOverState]

/-! ### C1: game-over triggers -/

/-- C1: on a frame of a running, not-yet-over session, the updated state is
GameOver exactly when the frame's silence timer has reached the grace period
with strictly positive accumulated scream time, or an obstacle collision is
detected this frame; no volume/pitch combination alone flips it. -/
theorem c1_gameOver_iff_triggers (i : FrameInput) (g : GState)
    (_hrun : g.state.isRunning = true) (hgo : g.state.isGameOver = false) :
    (Game.update i g).state.isGameOver = true ↔
      ((silenceGracePeriod ≤ Game.silenceTimerAfter i g ∧ 0 < g.state.screamTime) ∨
        Game.collisionThisFrame i g = true) := by
  unfold Game.update Game.silenceTimerAfter Game.collisionThisFrame Game.frameObstacles
    Game.distanceAfterMotion Game.speedAfterMotion
  simp only []
  split_ifs with hv hwin htrig
  · rw [obstaclePhase_isGameOver]
    simp only [hgo]
    norm_num [silenceGracePeriod, Bool.and_eq_true]
  · rw [obstaclePhase_isGameOver]
    simp only [hgo]
    norm_num [silenceGracePeriod, Bool.and_eq_true]
  · simp [Game.gameOverState, htrig]
  · rw [obstaclePhase_isGameOver]
    simp only [hgo]
    simp [htrig, Bool.and_eq_true]

/-- C1 witness: a silent frame of 100 ms on an armed running session crosses
the 0.05 s grace period and flips the state to GameOver. -/
theorem c1_gameOver_trigger_instance :
    (Game.update (silentFrame 100) armedSession).state.isGameOver = true :=
  (c1_gameOver_iff_triggers (silentFrame 100) armedSession rfl rfl).mpr
    (Or.inl ⟨by norm_num [Game.silenceTimerAfter, silentFrame, armedSession,
        volumeThreshold, silenceGracePeriod],
      by norm_num [armedSession, Game.getInitialState]⟩)

/-! ### C2: speed from volume -/

/-- C2 counterexample: a frame with volume exactly at the threshold (so
"volume ≥ threshold" holds) runs the silence branch — the code compares with
a strict `>` — and the post-update speed is 0, not the claimed
base + maxBoost·(volume−threshold)/(1−threshold) = base, and not in
[base, base+maxBoost]. -/
theorem c2_threshold_boundary_counterexample :
    (screamFrame 16 (3/10)).volume = volumeThreshold ∧
    (0:ℚ) ≤ (screamFrame 16 (3/10)).deltaTime ∧
    (Game.update (screamFrame 16 (3/10)) (runningAt 0)).state.speed = 0 ∧
    (Game.update (screamFrame 16 (3/10)) (runningAt 0)).state.speed ≠
      baseSpeed + (((screamFrame 16 (3/10)).volume - volumeThreshold) /
        (1 - volumeThreshold)) * maxSpeedBoost ∧
    ¬ baseSpeed ≤ (Game.update (screamFrame 16 (3/10)) (runningAt 0)).state.speed := by
  have hs : (Game.update (screamFrame 16 (3/10)) (runningAt 0)).state.speed = 0 := by
    have h := update_silent_state (screamFrame 16 (3/10)) (runningAt 0)
      (by norm_num [screamFrame, volumeThreshold])
      (by norm_num [screamFrame, runningAt, Game.getInitialState, silenceGracePeriod])
      (by norm_num [Game.collisionThisFrame, runningAt, Game.getInitialState])
    rw [h]
    simp only []
    rw [max_eq_left_iff.mpr (by norm_num [runningAt, Game.getInitialState, screamFrame])]
  refine ⟨by norm_num [screamFrame, volumeThreshold], by norm_num [screamFrame], hs, ?_, ?_⟩
  · rw [hs]
    norm_num [screamFrame, volumeThreshold, baseSpeed, maxSpeedBoost]
  · rw [hs]
    norm_num [baseSpeed]

/-- C2 amended: on a frame whose volume is strictly above the threshold and
at most 1, and on which no obstacle collision is detected, the post-update
speed equals base + maxBoost·(volume−threshold)/(1−threshold), lies in
[base, base+maxBoost], and the volume-to-speed map is monotone
non-decreasing; at volume 0.65 it is 510 (see the witness). -/
theorem c2_speed_formula_amended (i : FrameInput) (g : GState)
    (_hdt : 0 ≤ i.deltaTime) (hv : volumeThreshold < i.volume) (hv1 : i.volume ≤ 1)
    (hnc : Game.collisionThisFrame i g = false) :
    (Game.update i g).state.speed =
        baseSpeed + ((i.volume - volumeThreshold) / (1 - volumeThreshold)) * maxSpeedBoost ∧
    baseSpeed ≤ (Game.update i g).state.speed ∧
    (Game.update i g).state.speed ≤ baseSpeed + maxSpeedBoost ∧
    (∀ v w : ℚ, v ≤ w → Game.updateSpeed v ≤ Game.updateSpeed w) := by
  have hs : (Game.update i g).state.speed = Game.updateSpeed i.volume := by
    rw [update_screaming_state i g hv hnc]
  have hlin := updateSpeed_linear i.volume
  unfold volumeThreshold at hv
  refine ⟨?_, ?_, ?_, ?_⟩
  · rw [hs]; rfl
  · rw [hs, hlin]; unfold baseSpeed; nlinarith
  · rw [hs, hlin]; unfold baseSpeed maxSpeedBoost; nlinarith
  · intro v w hvw
    rw [updateSpeed_linear, updateSpeed_linear]
    nlinarith

/-- C2 witness: the concrete scenario — volume 0.65, threshold 0.3,
base 10, maxBoost 1000 — yields post-update speed exactly 510. -/
theorem c2_speed_formula_instance :
    (Game.update (screamFrame 16 (65/100)) (runningAt 0)).state.speed = 510 := by
  have h := (c2_speed_formula_amended (screamFrame 16 (65/100)) (runningAt 0)
    (by norm_num [screamFrame])
    (by norm_num [screamFrame, volumeThreshold])
    (by norm_num [screamFrame])
    (by norm_num [Game.collisionThisFrame, runningAt, Game.getInitialState])).1
  rw [h]
  norm_num [screamFrame, volumeThreshold, baseSpeed, maxSpeedBoost]

/-! ### Per-frame case analysis of Game.update -/

lemma obstaclePhase_state_fields (i : FrameInput) (g : GState) :
    ((Game.obstaclePhase i g).state.speed = g.state.speed ∧
      (Game.obstaclePhase i g).state.isRunning = g.state.isRunning ∧
      (Game.obstaclePhase i g).state.isGameOver = g.state.isGameOver) ∨
    ((Game.obstaclePhase i g).state.speed = 0 ∧
      (Game.obstaclePhase i g).state.isRunning = false ∧
      (Game.obstaclePhase i g).state.isGameOver = true) := by
  unfold Game.obstaclePhase Game.gameOverState
  split_ifs with h1
  · simp only []
    split_ifs with h2
    · right; exact ⟨rfl, rfl, rfl⟩
    · left; exact ⟨rfl, rfl, rfl⟩
  · left; exact ⟨rfl, rfl, rfl⟩

/-- Every frame either keeps the session alive — post speed and distance are
the motion-phase values and the run/over flags are untouched — or ends it,
zeroing the speed; in the latter case distance is either untouched (silence
game-over returns early) or already integrated (collision game-over). -/
lemma update_cases (i : FrameInput) (g : GState) :
    ((Game.update i g).state.speed = Game.speedAfterMotion i g ∧
      (Game.update i g).state.distance = Game.distanceAfterMotion i g ∧
      (Game.update i g).state.isRunning = g.state.isRunning ∧
      (Game.update i g).state.isGameOver = g.state.isGameOver) ∨
    ((Game.update i g).state.speed = 0 ∧
      (Game.update i g).state.isRunning = false ∧
      (Game.update i g).state.isGameOver = true ∧
      ((Game.update i g).state.distance = g.state.distance ∨
        (Game.update i g).state.distance = Game.distanceAfterMotion i g)) := by
  unfold Game.update Game.distanceAfterMotion Game.speedAfterMotion
  simp only []
  split_ifs with hv hwin htrig
  · rcases obstaclePhase_state_fields i
        { state := { g.state with
              volumeLevel := i.volume
              isScreaming := true
              screamTime := g.state.screamTime + i.deltaTime / 1000
              speed := Game.updateSpeed i.volume
              distance := g.state.distance + Game.updateSpeed i.volume * (i.deltaTime / 1000) }
          silenceTimer := 0
          referencePitch := i.pitch
          currentPitch := i.pitch
          obstacles := g.obstacles } with ⟨hs, hr, ho⟩ | ⟨hs, hr, ho⟩
    · exact Or.inl ⟨hs, obstaclePhase_distance _ _, hr, ho⟩
    · exact Or.inr ⟨hs, hr, ho, Or.inr (obstaclePhase_distance _ _)⟩
  · rcases obstaclePhase_state_fields i
        { state := { g.state with
              volumeLevel := i.volume
              isScreaming := true
              screamTime := g.state.screamTime + i.deltaTime / 1000
              speed := Game.updateSpeed i.volume
              distance := g.state.distance + Game.updateSpeed i.volume * (i.deltaTime / 1000) }
          silenceTimer := 0
          referencePitch := g.referencePitch
          currentPitch := i.pitch
          obstacles := g.obstacles } with ⟨hs, hr, ho⟩ | ⟨hs, hr, ho⟩
    · exact Or.inl ⟨hs, obstaclePhase_distance _ _, hr, ho⟩
    · exact Or.inr ⟨hs, hr, ho, Or.inr (obstaclePhase_distance _ _)⟩
  · exact Or.inr ⟨rfl, rfl, rfl, Or.inl rfl⟩
  · rcases obstaclePhase_state_fields i
        { state := { g.state with
              volumeLevel := i.volume
              isScreaming := false
              speed := max 0 (g.state.speed - 200 * (i.deltaTime / 1000))
              distance := g.state.distance +
                max 0 (g.state.speed - 200 * (i.deltaTime / 1000)) * (i.deltaTime / 1000) }
          silenceTimer := g.silenceTimer + i.deltaTime / 1000
          referencePitch := g.referencePitch
          currentPitch := i.pitch
          obstacles := g.obstacles } with ⟨hs, hr, ho⟩ | ⟨hs, hr, ho⟩
    · exact Or.inl ⟨hs, obstaclePhase_distance _ _, hr, ho⟩
    · exact Or.inr ⟨hs, hr, ho, Or.inr (obstaclePhase_distance _ _)⟩

lemma max_zero_sub_le (a d : ℚ) (hd : 0 ≤ d) : max 0 (max 0 a - d) ≤ max 0 (a - d) := by
  rcases le_total a 0 with h | h
  · rw [max_eq_left h]
    have : (0:ℚ) - d ≤ 0 := by linarith
    rw [max_eq_left this]
    exact le_max_left _ _
  · rw [max_eq_right h]

/-- One silent frame through the gameLoop guard: the invariant is kept, the
speed does not increase, and it is bounded by the linear decay. -/
lemma step_silent_bound (i : FrameInput) (g : GState)
    (hv : i.volume ≤ volumeThreshold) (hdt : 0 ≤ i.deltaTime) (hI : GameInv g) :
    GameInv (Game.step i g) ∧
    (Game.step i g).state.speed ≤ g.state.speed ∧
    (Game.step i g).state.speed ≤ max 0 (g.state.speed - 200 * (i.deltaTime / 1000)) := by
  have hdd : (0:ℚ) ≤ 200 * (i.deltaTime / 1000) := by positivity
  unfold Game.step
  split_ifs with hguard
  · have h0 : g.state.speed = 0 := hI.2 hguard
    exact ⟨hI, le_refl _, by rw [h0]; exact le_max_left _ _⟩
  · rw [not_or] at hguard
    obtain ⟨hr, hgo⟩ := hguard
    rw [Bool.not_eq_false] at hr
    rw [Bool.not_eq_true] at hgo
    have hsa : Game.speedAfterMotion i g = max 0 (g.state.speed - 200 * (i.deltaTime / 1000)) := by
      unfold Game.speedAfterMotion
      rw [if_neg (not_lt.mpr hv)]
    rcases update_cases i g with ⟨hs, _, hrr, hgg⟩ | ⟨hs, hrr, hgg, _⟩
    · have hsp' : (Game.update i g).state.speed =
          max 0 (g.state.speed - 200 * (i.deltaTime / 1000)) := by rw [hs, hsa]
      refine ⟨⟨?_, ?_⟩, ?_, ?_⟩
      · rw [hsp']; exact le_max_left _ _
      · intro hcon
        rw [hrr, hr, hgg, hgo] at hcon
        simp at hcon
      · rw [hsp']; exact max_le hI.1 (by linarith)
      · rw [hsp']
    · refine ⟨⟨?_, ?_⟩, ?_, ?_⟩
      · rw [hs]
      · intro _; rw [hs]
      · rw [hs]; exact hI.1
      · rw [hs]; exact le_max_left _ _

/-- Along any all-silent input stream with fixed frame time δ, the invariant
holds and the speed after n frames is bounded by the linear decay from the
initial speed. -/
lemma run_silent_bound (δ : ℚ) (f : ℕ → FrameInput) (g0 : GState)
    (hδ : 0 ≤ δ) (hvol : ∀ k, (f k).volume ≤ volumeThreshold)
    (hdt : ∀ k, (f k).deltaTime = δ) (hI0 : GameInv g0) :
    ∀ n : ℕ, GameInv (Game.run f g0 n) ∧
      (Game.run f g0 n).state.speed ≤ max 0 (g0.state.speed - 200 * (δ / 1000) * n) := by
  intro n
  induction n with
  | zero =>
    refine ⟨hI0, ?_⟩
    have : g0.state.speed - 200 * (δ / 1000) * ((0:ℕ) : ℚ) = g0.state.speed := by
      push_cast; ring
    rw [this, max_eq_right hI0.1]
    exact le_refl _
  | succ n ih =>
    obtain ⟨hIn, hbn⟩ := ih
    have hstep := step_silent_bound (f n) (Game.run f g0 n) (hvol n)
      (by rw [hdt n]; exact hδ) hIn
    refine ⟨hstep.1, ?_⟩
    have h1 : (Game.run f g0 (n + 1)).state.speed ≤
        max 0 ((Game.run f g0 n).state.speed - 200 * (δ / 1000)) := by
      have := hstep.2.2
      rw [hdt n] at this
      exact this
    have h2 : max 0 ((Game.run f g0 n).state.speed - 200 * (δ / 1000)) ≤
        max 0 (max 0 (g0.state.speed - 200 * (δ / 1000) * n) - 200 * (δ / 1000)) :=
      max_le_max (le_refl 0) (sub_le_sub_right hbn _)
    have h3 : max 0 (max 0 (g0.state.speed - 200 * (δ / 1000) * n) - 200 * (δ / 1000)) ≤
        max 0 (g0.state.speed - 200 * (δ / 1000) * n - 200 * (δ / 1000)) :=
      max_zero_sub_le _ _ (by positivity)
    have h4 : g0.state.speed - 200 * (δ / 1000) * n - 200 * (δ / 1000) =
        g0.state.speed - 200 * (δ / 1000) * ((n + 1 : ℕ) : ℚ) := by
      push_cast; ring
    rw [h4] at h3
    exact le_trans h1 (le_trans h2 h3)

/-! ### C3: silence decay -/

lemma silent_zero_update_fixed :
    Game.update (silentFrame 0) (runningAt 510) = runningAt 510 := by
  unfold Game.update Game.obstaclePhase
  norm_num [silentFrame, runningAt, Game.getInitialState, volumeThreshold,
    silenceGracePeriod, max_def]

lemma silent_zero_step_fixed :
    Game.step (silentFrame 0) (runningAt 510) = runningAt 510 := by
  unfold Game.step
  rw [if_neg (by norm_num [runningAt, Game.getInitialState])]
  exact silent_zero_update_fixed

lemma run_silent_zero_const :
    ∀ n, Game.run (fun _ => silentFrame 0) (runningAt 510) n = runningAt 510
  | 0 => rfl
  | n + 1 => by
    rw [Game.run, run_silent_zero_const n, silent_zero_step_fixed]

/-- C3 counterexample: every frame is silent but carries Δt = 0, so the speed
never decays — after 1000 frames (far beyond any bound proportional to the
initial speed 510 and the decay rate 200/s) it is still 510, not 0.  The
claim's "reaches exactly 0 within a bounded number of frames" fails without a
lower bound on the frame time. -/
theorem c3_zero_delta_counterexample :
    (silentFrame 0).volume ≤ volumeThreshold ∧
    (Game.run (fun _ => silentFrame 0) (runningAt 510) 1000).state.speed = 510 ∧
    (510:ℚ) ≠ 0 := by
  refine ⟨by norm_num [silentFrame, volumeThreshold], ?_, by norm_num⟩
  rw [run_silent_zero_const 1000]
  rfl

/-- C3 amended: along any input stream whose frames are all below the
threshold and carry a fixed frame time δ > 0, from a running session with
non-negative speed, the speed never increases frame to frame, never goes
below 0, and is exactly 0 after any n frames with
initialSpeed ≤ 200·(δ/1000)·n — a frame count proportional to the initial
speed and inverse to the decay rate 200/s times the frame time. -/
theorem c3_silence_decay_amended (δ : ℚ) (f : ℕ → FrameInput) (g0 : GState)
    (hδ : 0 < δ) (hvol : ∀ k, (f k).volume ≤ volumeThreshold)
    (hdt : ∀ k, (f k).deltaTime = δ)
    (hrun : g0.state.isRunning = true) (hgo : g0.state.isGameOver = false)
    (hsp : 0 ≤ g0.state.speed) :
    (∀ n, (Game.run f g0 (n + 1)).state.speed ≤ (Game.run f g0 n).state.speed) ∧
    (∀ n, 0 ≤ (Game.run f g0 n).state.speed) ∧
    (∀ n : ℕ, g0.state.speed ≤ 200 * (δ / 1000) * n →
      (Game.run f g0 n).state.speed = 0) := by
  have hI0 : GameInv g0 := by
    refine ⟨hsp, fun hcon => ?_⟩
    rcases hcon with h | h
    · rw [hrun] at h; exact absurd h (by simp)
    · rw [hgo] at h; exact absurd h (by simp)
  have hmain := run_silent_bound δ f g0 (le_of_lt hδ) hvol hdt hI0
  refine ⟨fun n => ?_, fun n => (hmain n).1.1, fun n hn => ?_⟩
  · exact (step_silent_bound (f n) _ (hvol n)
      (by rw [hdt n]; exact le_of_lt hδ) (hmain n).1).2.1
  · have hb := (hmain n).2
    have hmax : max 0 (g0.state.speed - 200 * (δ / 1000) * n) = 0 :=
      max_eq_left (by linarith)
    rw [hmax] at hb
    exact le_antisymm hb (hmain n).1.1

/-- C3 witness: silent frames of 1 s at speed 510 — after 3 frames
(510 ≤ 200·1·3) the speed is exactly 0. -/
theorem c3_silence_decay_instance :
    (0:ℚ) < 1000 ∧
    (Game.run (fun _ => silentFrame 1000) (runningAt 510) 3).state.speed = 0 :=
  ⟨by norm_num,
    (c3_silence_decay_amended 1000 (fun _ => silentFrame 1000) (runningAt 510)
      (by norm_num)
      (fun _ => by norm_num [silentFrame, volumeThreshold])
      (fun _ => rfl)
      rfl rfl (by norm_num [runningAt, Game.getInitialState])).2.2 3
    (by push_cast; norm_num [runningAt, Game.getInitialState])⟩

/-! ### C4: distance monotonicity -/

lemma step_speed_nonneg (i : FrameInput) (g : GState) (hsp : 0 ≤ g.state.speed) :
    0 ≤ (Game.step i g).state.speed := by
  unfold Game.step
  split_ifs with hguard
  · exact hsp
  · rcases update_cases i g with ⟨hs, _, _, _⟩ | ⟨hs, _, _, _⟩
    · rw [hs]; exact speedAfterMotion_nonneg i g
    · rw [hs]

lemma step_distance_mono (i : FrameInput) (g : GState) (hdt : 0 ≤ i.deltaTime) :
    g.state.distance ≤ (Game.step i g).state.distance := by
  have hnn := speedAfterMotion_nonneg i g
  have hterm : 0 ≤ Game.speedAfterMotion i g * (i.deltaTime / 1000) :=
    mul_nonneg hnn (by positivity)
  unfold Game.step
  split_ifs with hguard
  · exact le_refl _
  · rcases update_cases i g with ⟨_, hd, _, _⟩ | ⟨_, _, _, hd⟩
    · rw [hd]
      unfold Game.distanceAfterMotion
      linarith
    · rcases hd with hd | hd
      · rw [hd]
      · rw [hd]
        unfold Game.distanceAfterMotion
        linarith

/-- C4 counterexample: a screaming frame with Δt = 0 leaves the post-update
speed at 510 > 0 yet the distance unchanged, so "distance strictly increases
iff speed > 0 on that frame" fails as stated. -/
theorem c4_zero_delta_counterexample :
    (runningAt 0).state.isRunning = true ∧
    (Game.update (screamFrame 0 (65/100)) (runningAt 0)).state.isGameOver = false ∧
    0 < (Game.update (screamFrame 0 (65/100)) (runningAt 0)).state.speed ∧
    (Game.update (screamFrame 0 (65/100)) (runningAt 0)).state.distance =
      (runningAt 0).state.distance := by
  have h := update_screaming_state (screamFrame 0 (65/100)) (runningAt 0)
    (by norm_num [screamFrame, volumeThreshold])
    (by norm_num [Game.collisionThisFrame, runningAt, Game.getInitialState])
  refine ⟨rfl, ?_, ?_, ?_⟩
  · rw [h]
    norm_num [runningAt, Game.getInitialState]
  · rw [h]
    norm_num [Game.updateSpeed, screamFrame, volumeThreshold, baseSpeed, maxSpeedBoost]
  · rw [h]
    norm_num [runningAt, Game.getInitialState, screamFrame]

/-- C4 amended: along any input stream with non-negative frame times the
distance never decreases across a frame; and on a frame that does not end in
GameOver, the distance strictly increases exactly when the post-update speed
is positive and the frame time is positive. -/
theorem c4_distance_monotone_amended (f : ℕ → FrameInput) (g0 : GState)
    (hdt : ∀ k, 0 ≤ (f k).deltaTime) :
    (∀ n, (Game.run f g0 n).state.distance ≤ (Game.run f g0 (n + 1)).state.distance) ∧
    (∀ (i : FrameInput) (g : GState), 0 ≤ i.deltaTime →
      (Game.update i g).state.isGameOver = false →
      (g.state.distance < (Game.update i g).state.distance ↔
        0 < (Game.update i g).state.speed ∧ 0 < i.deltaTime)) := by
  refine ⟨fun n => step_distance_mono (f n) _ (hdt n), fun i g hdt' hngo => ?_⟩
  rcases update_cases i g with ⟨hs, hd, _, _⟩ | ⟨_, _, hgg, _⟩
  · rw [hs, hd]
    unfold Game.distanceAfterMotion
    have hnn := speedAfterMotion_nonneg i g
    constructor
    · intro hlt
      have hprod : 0 < Game.speedAfterMotion i g * (i.deltaTime / 1000) := by linarith
      constructor
      · rcases lt_or_eq_of_le hnn with hp | hp
        · exact hp
        · exfalso
          rw [← hp] at hprod
          norm_num at hprod
      · by_contra hcon
        push_neg at hcon
        have hz : i.deltaTime = 0 := le_antisymm hcon hdt'
        rw [hz] at hprod
        norm_num at hprod
    · rintro ⟨hspos, hdtpos⟩
      have : 0 < Game.speedAfterMotion i g * (i.deltaTime / 1000) :=
        mul_pos hspos (div_pos hdtpos (by norm_num))
      linarith
  · rw [hgg] at hngo
    exact absurd hngo (by simp)

/-- C4 witness: a screaming frame with Δt = 16 ms on a running session — the
frame does not end in GameOver, the post speed 510 and Δt are positive, so
the distance strictly increases. -/
theorem c4_distance_monotone_instance :
    (runningAt 0).state.distance <
      (Game.update (screamFrame 16 (65/100)) (runningAt 0)).state.distance := by
  have h := update_screaming_state (screamFrame 16 (65/100)) (runningAt 0)
    (by norm_num [screamFrame, volumeThreshold])
    (by norm_num [Game.collisionThisFrame, runningAt, Game.getInitialState])
  refine ((c4_distance_monotone_amended (fun _ => screamFrame 16 (65/100)) (runningAt 0)
      (fun _ => by norm_num [screamFrame])).2
    (screamFrame 16 (65/100)) (runningAt 0)
    (by norm_num [screamFrame]) ?_).mpr ⟨?_, by norm_num [screamFrame]⟩
  · rw [h]
    norm_num [runningAt, Game.getInitialState]
  · rw [h]
    norm_num [Game.updateSpeed, screamFrame, volumeThreshold, baseSpeed, maxSpeedBoost]

/-! ### C8: reference pitch -/

/-- C8 counterexample: two consecutive screaming frames inside the capture
window (distance 4600, flying challenge mode on) with pitches 100 then 200 —
the reference pitch is assigned on the first frame and reassigned on the
second, so it is not "set once and then frozen". -/
theorem c8_reassigned_counterexample :
    (Game.update (pitchFrame 100) captureWindowSession).referencePitch = 100 ∧
    (Game.update (pitchFrame 200)
      (Game.update (pitchFrame 100) captureWindowSession)).referencePitch = 200 := by
  have hnc : Game.collisionThisFrame (pitchFrame 100) captureWindowSession = false := by
    norm_num [Game.collisionThisFrame, Game.frameObstacles, Game.distanceAfterMotion,
      Game.speedAfterMotion, ObstacleManager.update, ObstacleManager.START_DISTANCE,
      ObstacleManager.checkCollision, captureWindowSession, Game.getInitialState,
      pitchFrame, volumeThreshold]
  have hst := update_screaming_state (pitchFrame 100) captureWindowSession
    (by norm_num [pitchFrame, volumeThreshold]) hnc
  have hfly : (Game.update (pitchFrame 100) captureWindowSession).state.flyingChallengeMode
      = true := by
    rw [hst]
    norm_num [captureWindowSession, Game.getInitialState]
  have hdist : (Game.update (pitchFrame 100) captureWindowSession).state.distance = 4600 := by
    rw [hst]
    norm_num [captureWindowSession, Game.getInitialState, pitchFrame]
  constructor
  · rw [update_referencePitch]
    rw [if_pos ⟨by norm_num [pitchFrame, volumeThreshold],
      by norm_num [captureWindowSession, Game.getInitialState],
      by norm_num [captureWindowSession, Game.getInitialState, Game.PITCH_CAPTURE_DISTANCE],
      by norm_num [captureWindowSession, Game.getInitialState],
      by norm_num [pitchFrame]⟩]
    exact rfl
  · rw [update_referencePitch]
    rw [if_pos ⟨by norm_num [pitchFrame, volumeThreshold], hfly,
      by rw [hdist]; norm_num [Game.PITCH_CAPTURE_DISTANCE],
      by rw [hdist]; norm_num,
      by norm_num [pitchFrame]⟩]
    exact rfl

/-- C8 amended: the reference pitch is reassigned only on frames that are
screaming, in flying challenge mode, inside the distance window
[4500, 5000) with a detected pitch — possibly several times within the
window; once the distance is 5000 or more it is frozen for the session, and
restart resets it to 0. -/
theorem c8_referencePitch_amended (i : FrameInput) (g : GState) :
    (¬ (volumeThreshold < i.volume ∧ g.state.flyingChallengeMode = true ∧
        Game.PITCH_CAPTURE_DISTANCE ≤ g.state.distance ∧ g.state.distance < 5000 ∧
        0 < i.pitch) →
      (Game.update i g).referencePitch = g.referencePitch) ∧
    (5000 ≤ g.state.distance → (Game.update i g).referencePitch = g.referencePitch) ∧
    (∀ (fm : Bool) (randI : ℚ) (g' : GState), (Game.restart fm randI g').referencePitch = 0) := by
  refine ⟨fun hno => ?_, fun h5 => ?_, fun _ _ _ => rfl⟩
  · rw [update_referencePitch, if_neg hno]
  · rw [update_referencePitch,
      if_neg (by rintro ⟨_, _, _, hlt, _⟩; linarith)]

/-- C8 witness: past the window (distance 6000) a screaming, pitched frame
leaves the latched reference pitch 440 unchanged. -/
theorem c8_referencePitch_instance :
    (5000:ℚ) ≤ pastWindowSession.state.distance ∧
    (Game.update (pitchFrame 300) pastWindowSession).referencePitch =
      pastWindowSession.referencePitch :=
  ⟨by norm_num [pastWindowSession, Game.getInitialState],
    (c8_referencePitch_amended (pitchFrame 300) pastWindowSession).2.1
      (by norm_num [pastWindowSession, Game.getInitialState])⟩
